import Mathlib

/-!
# Lane-runner game core: a shallow embedding of src/game.js

The game-state and rules engine of the endless lane-runner is embedded here
over exact rationals.  Pure renderer concerns (materials, colours, DOM,
audio, the 100 ms camera-restore timer after a shatter) are omitted;
positions, timers, collections and the rules are modelled faithfully from
the source.  The second file (src/unnamed/part_000) shares the identical
core logic with different numeric constants; src/game.js is the one
embedded.
-/

attribute [local semireducible] Rat.add Rat.mul Rat.inv Rat.sub Rat.ofScientific

namespace Runner

/-! ## Constants (src/game.js lines 7-20) -/

def LANE_WIDTH : ℚ := 5

/-- LANES maps the lane index to its world x coordinate. -/
def LANES (l : Fin 3) : ℚ :=
  if l.val = 0 then -LANE_WIDTH else if l.val = 1 then 0 else LANE_WIDTH

def PLAYER_RUN_HEIGHT : ℚ := 3/2
def JUMP_HEIGHT : ℚ := 9/2
def JUMP_DURATION : ℚ := 1/2
def SLIDE_HEIGHT : ℚ := 1/2
def COLLISION_SLIDE_HEIGHT : ℚ := 1
def RUN_SPEED_BASE : ℚ := 15
def RUN_SPEED_INCREASE : ℚ := 1/2
def OBSTACLE_SPAWN_Z : ℚ := -200
def OBSTACLE_CULL_Z : ℚ := 10
def PHASE_DURATION_SCORE : ℚ := 450

/-! ## Progression (src/game.js lines 53-81) -/

inductive StageType where
  | warmup
  | jump_only
  | slide_only
  | dodge_only
  | punch_only
  | full_combo
deriving DecidableEq

structure Stage where
  distance : ℚ
  type : StageType
  interval : ℚ
deriving DecidableEq

def defaultStage : Stage := ⟨0, .warmup, 40⟩

def PROGRESSION_STAGES : List Stage :=
  [ ⟨0, .warmup, 40⟩,
    ⟨PHASE_DURATION_SCORE * 1, .jump_only, 30⟩,
    ⟨PHASE_DURATION_SCORE * 2, .slide_only, 30⟩,
    ⟨PHASE_DURATION_SCORE * 3, .dodge_only, 25⟩,
    ⟨PHASE_DURATION_SCORE * 4, .punch_only, 30⟩,
    ⟨PHASE_DURATION_SCORE * 5, .full_combo, 20⟩ ]

/-- ProgressionManager.update: advance the stage index by one exactly when a
next stage exists and the score has reached its distance threshold. -/
def pmUpdate (currentStageIndex : ℕ) (score : ℚ) : ℕ :=
  if currentStageIndex < PROGRESSION_STAGES.length - 1 ∧
      (PROGRESSION_STAGES.getD (currentStageIndex + 1) defaultStage).distance ≤ score
  then currentStageIndex + 1
  else currentStageIndex

lemma pmUpdate_ge (i : ℕ) (q : ℚ) : i ≤ pmUpdate i q := by
  unfold pmUpdate; split <;> omega

lemma pmUpdate_le_succ (i : ℕ) (q : ℚ) : pmUpdate i q ≤ i + 1 := by
  unfold pmUpdate; split <;> omega

lemma pmUpdate_bound (i : ℕ) (q : ℚ) (h : i ≤ 5) : pmUpdate i q ≤ 5 := by
  unfold pmUpdate
  split
  · next hc =>
      have h6 : PROGRESSION_STAGES.length - 1 = 5 := rfl
      rw [h6] at hc
      omega
  · omega

lemma pmUpdate_foldl_bound (l : List ℚ) :
    ∀ i, i ≤ 5 → List.foldl pmUpdate i l ≤ 5 := by
  induction l with
  | nil => intro i h; simpa using h
  | cons a t ih => intro i h; exact ih _ (pmUpdate_bound _ _ h)

/-- Claim C3: over any sequence of update calls the stage index is
monotonically non-decreasing, never exceeds the last index 5
(stages.length - 1), each call advances by at most one, and a call
advances exactly when a next stage exists (index below 5) and the score
has reached the next threshold; the last stage is terminal. -/
theorem progression_update_props (i : ℕ) (q : ℚ) (scores : List ℚ) (hi : i ≤ 5) :
    i ≤ pmUpdate i q ∧
    pmUpdate i q ≤ i + 1 ∧
    pmUpdate i q ≤ 5 ∧
    (pmUpdate i q = i + 1 ↔
      (i < 5 ∧ (PROGRESSION_STAGES.getD (i + 1) defaultStage).distance ≤ q)) ∧
    List.foldl pmUpdate 0 scores ≤ 5 := by
  refine ⟨pmUpdate_ge i q, pmUpdate_le_succ i q, pmUpdate_bound i q hi, ?_,
    pmUpdate_foldl_bound scores 0 (by omega)⟩
  unfold pmUpdate
  have h6 : PROGRESSION_STAGES.length - 1 = 5 := rfl
  rw [h6]
  split
  · next hc => exact ⟨fun _ => hc, fun _ => rfl⟩
  · next hc =>
      constructor
      · intro h; omega
      · intro h; exact absurd h hc

/-- Claim C3 witness: the theorem at the 449 to 450 boundary and at the
terminal stage. -/
theorem progression_update_props_witness :
    pmUpdate 0 450 = 1 ∧ pmUpdate 0 449 = 0 ∧ pmUpdate 5 99999 ≤ 5 := by
  have h0 := progression_update_props 0 450 [] (by omega)
  have h1 := progression_update_props 0 449 [] (by omega)
  have h5 := progression_update_props 5 99999 [] (by omega)
  refine ⟨h0.2.2.2.1.mpr ⟨by omega, by norm_num [PROGRESSION_STAGES, PHASE_DURATION_SCORE]⟩, ?_, h5.2.2.1⟩
  rcases Nat.lt_or_ge (pmUpdate 0 449) 1 with h | h
  · omega
  · exfalso
    have := h1.2.1
    have heq : pmUpdate 0 449 = 0 + 1 := by omega
    have := h1.2.2.2.1.mp heq
    norm_num [PROGRESSION_STAGES, PHASE_DURATION_SCORE] at this

/-! ## Obstacles (src/game.js lines 263-310) -/

inductive ObstacleType where
  | jump
  | slide
  | wall
  | breakable
deriving DecidableEq

/-- A live obstacle record: its lane, kind, box geometry (width, height,
depth), world position (x is derived from the lane, y and z stored), the
isBreakable flag, the collided flag, and whether its mesh is still in the
scene (set to false by shatterWall). -/
structure Obstacle where
  lane : Fin 3
  obstacleType : ObstacleType
  geomW : ℚ
  geomH : ℚ
  geomD : ℚ
  y : ℚ
  z : ℚ
  isBreakable : Bool
  collided : Bool
  inScene : Bool
deriving DecidableEq

/-- createObstacle: geometry dimensions and vertical placement per kind,
spawned at OBSTACLE_SPAWN_Z, not collided. -/
def createObstacle (lane : Fin 3) (t : ObstacleType) : Obstacle :=
  match t with
  | .jump => ⟨lane, t, LANE_WIDTH * (4/5), 1, 1, 1/2, OBSTACLE_SPAWN_Z, false, false, true⟩
  | .slide => ⟨lane, t, LANE_WIDTH * (4/5), 1, 1, PLAYER_RUN_HEIGHT + 1/2, OBSTACLE_SPAWN_Z, false, false, true⟩
  | .wall => ⟨lane, t, LANE_WIDTH * (4/5), 3/2, 1, 3/4, OBSTACLE_SPAWN_Z, false, false, true⟩
  | .breakable => ⟨lane, t, LANE_WIDTH * (4/5), 5/2, 1, 5/4, OBSTACLE_SPAWN_Z, true, false, true⟩

lemma createObstacle_lane (l : Fin 3) (t : ObstacleType) : (createObstacle l t).lane = l := by
  cases t <;> rfl

lemma createObstacle_type (l : Fin 3) (t : ObstacleType) :
    (createObstacle l t).obstacleType = t := by
  cases t <;> rfl

/-- One DebrisBurst token: the 50-particle Points object emitted by
shatterWall, with its origin and remaining lifetime (ttl). -/
structure Debris where
  x : ℚ
  y : ℚ
  z : ℚ
  ttl : ℚ
deriving DecidableEq

/-! ## Game state (src/game.js lines 22-46) -/

structure GameState where
  isPaused : Bool
  isGameOver : Bool
  currentLane : Fin 3
  isJumping : Bool
  jumpStartTime : ℚ
  isSliding : Bool
  isPunching : Bool
  score : ℚ
  currentSpeed : ℚ
  obstacles : List Obstacle
  debrisParticles : List Debris
  timeSinceLastObstacle : ℚ
  elapsedTime : ℚ
  cameraX : ℚ
  cameraY : ℚ
  stageIndex : ℕ
deriving DecidableEq

def getStage (s : GameState) : Stage := PROGRESSION_STAGES.getD s.stageIndex defaultStage

/-- The fresh session at game start: lane 1, running pose, score 0,
warmup stage, empty world. -/
def initialState : GameState where
  isPaused := false
  isGameOver := false
  currentLane := 1
  isJumping := false
  jumpStartTime := 0
  isSliding := false
  isPunching := false
  score := 0
  currentSpeed := RUN_SPEED_BASE
  obstacles := []
  debrisParticles := []
  timeSinceLastObstacle := 0
  elapsedTime := 0
  cameraX := LANES 1
  cameraY := PLAYER_RUN_HEIGHT
  stageIndex := 0

/-! ## Collision volumes (THREE.Box3 on axis-aligned boxes) -/

structure Box3 where
  minX : ℚ
  maxX : ℚ
  minY : ℚ
  maxY : ℚ
  minZ : ℚ
  maxZ : ℚ
deriving DecidableEq

def setFromCenterAndSize (cx cy cz sx sy sz : ℚ) : Box3 :=
  ⟨cx - sx/2, cx + sx/2, cy - sy/2, cy + sy/2, cz - sz/2, cz + sz/2⟩

/-- Box3.intersectsBox: overlap (touching included) on all three axes. -/
def Box3.intersects (a b : Box3) : Prop :=
  ¬(b.maxX < a.minX ∨ a.maxX < b.minX ∨ b.maxY < a.minY ∨ a.maxY < b.minY ∨
    b.maxZ < a.minZ ∨ a.maxZ < b.minZ)

instance (a b : Box3) : Decidable (a.intersects b) := by
  unfold Box3.intersects; infer_instance

/-- The world AABB of an obstacle mesh (setFromObject on a box geometry
centred at the mesh position). -/
def obstacleBox (o : Obstacle) : Box3 :=
  setFromCenterAndSize (LANES o.lane) o.y o.z o.geomW o.geomH o.geomD

/-- The player collision box (src/game.js lines 372-379): centred at the
camera x, a pose-dependent y, and z = 0; the vertical centre and height
use the slide values while sliding and the run values otherwise (the jump
height is not used here). -/
def playerBox (s : GameState) : Box3 :=
  setFromCenterAndSize s.cameraX
    (if s.isSliding then SLIDE_HEIGHT else PLAYER_RUN_HEIGHT) 0
    (LANE_WIDTH * (4/5))
    (if s.isSliding then COLLISION_SLIDE_HEIGHT else PLAYER_RUN_HEIGHT) 1

/-! ## Collision resolution (src/game.js lines 372-435) -/

/-- The accumulator threaded through the forEach over obstacles: the
game-over flag, the camera height (bumped by shatterWall) and the debris
list. -/
structure CollideAcc where
  isGameOver : Bool
  cameraY : ℚ
  debrisParticles : List Debris
deriving DecidableEq

/-- shatterWall: remove the wall mesh from the scene, mark it collided,
bump the camera up by 0.5 and emit one DebrisBurst with ttl 1. -/
def shatterWall (acc : CollideAcc) (o : Obstacle) : CollideAcc × Obstacle :=
  ({ acc with
      cameraY := acc.cameraY + 1/2,
      debrisParticles := acc.debrisParticles ++ [⟨LANES o.lane, o.y, o.z, 1⟩] },
   { o with inScene := false, collided := true })

/-- The body of the forEach in checkCollisions for one obstacle.  An
already-collided obstacle is skipped.  On intersection: breakable and
punching shatters (and the fall-through marks collided, already true);
jump-over and slide-under return early WITHOUT marking collided; anything
else is game over and marks collided. -/
def collideOne (pbox : Box3) (isPunching isJumping isSliding : Bool)
    (acc : CollideAcc) (o : Obstacle) : CollideAcc × Obstacle :=
  if o.collided then (acc, o)
  else if pbox.intersects (obstacleBox o) then
    if o.isBreakable ∧ isPunching then
      shatterWall acc o
    else if o.obstacleType = .jump ∧ isJumping ∧ o.y + 1/2 < acc.cameraY then
      (acc, o)
    else if o.obstacleType = .slide ∧ isSliding ∧ acc.cameraY < o.y - 1/2 then
      (acc, o)
    else
      ({ acc with isGameOver := true }, { o with collided := true })
  else (acc, o)

/-- The forEach over the obstacle list, threading the accumulator from
left to right and rebuilding the (in-place mutated) list. -/
def collideList (pbox : Box3) (isPunching isJumping isSliding : Bool) :
    CollideAcc → List Obstacle → CollideAcc × List Obstacle
  | acc, [] => (acc, [])
  | acc, o :: rest =>
      let r := collideOne pbox isPunching isJumping isSliding acc o
      let rr := collideList pbox isPunching isJumping isSliding r.1 rest
      (rr.1, r.2 :: rr.2)

def checkCollisions (s : GameState) : GameState :=
  let r := collideList (playerBox s) s.isPunching s.isJumping s.isSliding
      ⟨s.isGameOver, s.cameraY, s.debrisParticles⟩ s.obstacles
  { s with
      isGameOver := r.1.isGameOver,
      cameraY := r.1.cameraY,
      debrisParticles := r.1.debrisParticles,
      obstacles := r.2 }

lemma checkCollisions_singleton (s : GameState) (o : Obstacle)
    (hobs : s.obstacles = [o]) :
    checkCollisions s =
      { s with
        isGameOver := (collideOne (playerBox s) s.isPunching s.isJumping s.isSliding
          ⟨s.isGameOver, s.cameraY, s.debrisParticles⟩ o).1.isGameOver,
        cameraY := (collideOne (playerBox s) s.isPunching s.isJumping s.isSliding
          ⟨s.isGameOver, s.cameraY, s.debrisParticles⟩ o).1.cameraY,
        debrisParticles := (collideOne (playerBox s) s.isPunching s.isJumping s.isSliding
          ⟨s.isGameOver, s.cameraY, s.debrisParticles⟩ o).1.debrisParticles,
        obstacles := [(collideOne (playerBox s) s.isPunching s.isJumping s.isSliding
          ⟨s.isGameOver, s.cameraY, s.debrisParticles⟩ o).2] } := by
  unfold checkCollisions
  rw [hobs]
  rfl

lemma collideOne_shatter (pbox : Box3) (j sl : Bool) (acc : CollideAcc) (o : Obstacle)
    (hc : o.collided = false) (hint : pbox.intersects (obstacleBox o))
    (hb : o.isBreakable = true) :
    collideOne pbox true j sl acc o = shatterWall acc o := by
  unfold collideOne
  rw [if_neg (by simp [hc]), if_pos hint, if_pos ⟨hb, rfl⟩]

lemma collideOne_fatal (pbox : Box3) (p j sl : Bool) (acc : CollideAcc) (o : Obstacle)
    (hc : o.collided = false) (hint : pbox.intersects (obstacleBox o))
    (hnb : ¬(o.isBreakable = true ∧ p = true))
    (hnj : ¬(o.obstacleType = .jump ∧ j = true ∧ o.y + 1/2 < acc.cameraY))
    (hns : ¬(o.obstacleType = .slide ∧ sl = true ∧ acc.cameraY < o.y - 1/2)) :
    collideOne pbox p j sl acc o =
      ({ acc with isGameOver := true }, { o with collided := true }) := by
  unfold collideOne
  rw [if_neg (by simp [hc]), if_pos hint, if_neg hnb, if_neg hnj, if_neg hns]

lemma collideOne_pass (pbox : Box3) (p j sl : Bool) (acc : CollideAcc) (o : Obstacle)
    (hc : o.collided = false) (hint : pbox.intersects (obstacleBox o))
    (hnb : ¬(o.isBreakable = true ∧ p = true))
    (hcase : (o.obstacleType = .jump ∧ j = true ∧ o.y + 1/2 < acc.cameraY) ∨
             (o.obstacleType = .slide ∧ sl = true ∧ acc.cameraY < o.y - 1/2)) :
    collideOne pbox p j sl acc o = (acc, o) := by
  unfold collideOne
  rw [if_neg (by simp [hc]), if_pos hint, if_neg hnb]
  rcases hcase with hj | hs
  · rw [if_pos hj]
  · rw [if_neg (by rintro ⟨h1, -⟩; rw [hs.1] at h1; exact ObstacleType.noConfusion h1),
      if_pos hs]

/-- Claim C1: on a tick where a live, not-yet-collided breakable obstacle
intersects the player volume, punching shatters it (its mesh leaves the
scene, it is marked collided so it is skipped by every later check, and a
DebrisBurst is emitted) and the game does not end; not punching makes the
session transition to game over. -/
theorem breakable_collision (s : GameState) (o : Obstacle)
    (hobs : s.obstacles = [o])
    (ht : o.obstacleType = .breakable)
    (hb : o.isBreakable = true)
    (hc : o.collided = false)
    (hint : (playerBox s).intersects (obstacleBox o))
    (hgo : s.isGameOver = false) :
    (s.isPunching = true →
      (checkCollisions s).isGameOver = false ∧
      (checkCollisions s).obstacles.map (fun x => x.inScene) = [false] ∧
      (checkCollisions s).obstacles.map (fun x => x.collided) = [true] ∧
      (checkCollisions s).debrisParticles.length = s.debrisParticles.length + 1) ∧
    (s.isPunching = false →
      (checkCollisions s).isGameOver = true ∧
      (checkCollisions s).obstacles.map (fun x => x.collided) = [true]) := by
  constructor
  · intro hp
    rw [checkCollisions_singleton s o hobs, hp,
      collideOne_shatter (playerBox s) s.isJumping s.isSliding _ o hc hint hb]
    simp [shatterWall, hgo]
  · intro hp
    rw [checkCollisions_singleton s o hobs, hp,
      collideOne_fatal (playerBox s) false s.isJumping s.isSliding _ o hc hint
        (by rintro ⟨-, h⟩; exact Bool.noConfusion h)
        (by rintro ⟨h1, -⟩; rw [ht] at h1; exact ObstacleType.noConfusion h1)
        (by rintro ⟨h1, -⟩; rw [ht] at h1; exact ObstacleType.noConfusion h1)]
    simp

/-- A breakable obstacle placed right at the player plane. -/
def brObs : Obstacle := { createObstacle 1 .breakable with z := 0 }

def punchState : GameState := { initialState with isPunching := true, obstacles := [brObs] }

def noPunchState : GameState := { initialState with obstacles := [brObs] }

/-- Claim C1 witness: the theorem applied to a punching player and a
non-punching player each facing a breakable wall at the player plane. -/
theorem breakable_collision_witness :
    ((checkCollisions punchState).isGameOver = false ∧
      (checkCollisions punchState).obstacles.map (fun x => x.inScene) = [false] ∧
      (checkCollisions punchState).obstacles.map (fun x => x.collided) = [true] ∧
      (checkCollisions punchState).debrisParticles.length =
        punchState.debrisParticles.length + 1) ∧
    ((checkCollisions noPunchState).isGameOver = true ∧
      (checkCollisions noPunchState).obstacles.map (fun x => x.collided) = [true]) := by
  have h1 := breakable_collision punchState brObs (by decide) (by decide) (by decide)
    (by decide) (by decide) (by decide)
  have h2 := breakable_collision noPunchState brObs (by decide) (by decide) (by decide)
    (by decide) (by decide) (by decide)
  exact ⟨h1.1 rfl, h2.2 rfl⟩

/-- Claim C2 (amended): a jump-over (jump obstacle, jumping player whose
camera height clears the obstacle top plus the margin) or a slide-under
(slide obstacle, sliding player whose camera height is below the obstacle
bottom edge) leaves the whole game state unchanged: the game does not
end, no debris is emitted, and in particular the obstacle is NOT marked
collided, so it is re-checked on later ticks (the forEach callback
returns before the line that sets the collided flag). -/
theorem passover_unchanged (s : GameState) (o : Obstacle)
    (hobs : s.obstacles = [o])
    (hb : o.isBreakable = false)
    (hc : o.collided = false)
    (hint : (playerBox s).intersects (obstacleBox o))
    (hcase : (o.obstacleType = .jump ∧ s.isJumping = true ∧ o.y + 1/2 < s.cameraY) ∨
             (o.obstacleType = .slide ∧ s.isSliding = true ∧ s.cameraY < o.y - 1/2)) :
    checkCollisions s = s := by
  rw [checkCollisions_singleton s o hobs,
    collideOne_pass (playerBox s) s.isPunching s.isJumping s.isSliding _ o hc hint
      (by rintro ⟨h1, -⟩; rw [hb] at h1; exact Bool.noConfusion h1) hcase]
  rw [← hobs]

/-- A jump obstacle at the player plane, about to be cleared in the air. -/
def passObs : Obstacle := { createObstacle 1 .jump with z := 0 }

/-- A player mid-jump over passObs: collision testing still uses the
running-pose box, while the exemption test reads the raised camera. -/
def passState : GameState :=
  { initialState with isJumping := true, cameraY := 6, obstacles := [passObs] }

/-- A synthetic slide-under situation: a low-hanging slide obstacle that
still overlaps the sliding player volume while its centre stays high. -/
def passSlideObs : Obstacle :=
  { createObstacle 1 .slide with z := 0, y := 3, geomH := 26/5 }

def passSlideState : GameState :=
  { initialState with
    isSliding := true
    cameraY := SLIDE_HEIGHT
    obstacles := [passSlideObs] }

/-- Claim C2 counterexample: in the jump-over situation the claim says
the obstacle is marked collided to suppress re-checks, but after
checkCollisions its collided flag is still false (the code returns from
the callback before marking). -/
theorem passover_cex :
    (playerBox passState).intersects (obstacleBox passObs) ∧
    passObs.obstacleType = .jump ∧ passState.isJumping = true ∧
    passObs.y + 1/2 < passState.cameraY ∧
    (checkCollisions passState).obstacles.map (fun x => x.collided) = [false] ∧
    (checkCollisions passState).isGameOver = false := by decide

/-- Claim C2 witness: the amended theorem applied to a concrete jump-over
and a concrete slide-under state. -/
theorem passover_unchanged_witness :
    checkCollisions passState = passState ∧
    checkCollisions passSlideState = passSlideState := by
  constructor
  · exact passover_unchanged passState passObs (by decide) (by decide) (by decide)
      (by decide) (Or.inl ⟨by decide, by decide, by decide⟩)
  · exact passover_unchanged passSlideState passSlideObs (by decide) (by decide)
      (by decide) (by decide) (Or.inr ⟨by decide, by decide, by decide⟩)

/-! ## Obstacle generation (src/game.js lines 299-343)

The calls to Math.random() made during one spawn decision are passed in
explicitly: the full_combo kind draw (an index into the four kinds), the
one-or-two-lanes draw (a number in the unit interval compared with 0.6),
the lane to keep open when blocking two lanes, and the single blocked
lane otherwise. -/

structure Rand where
  rFull : Fin 4
  rNum : ℚ
  rOpenLane : Fin 3
  rLane : Fin 3
deriving DecidableEq

def allObstacleTypes : List ObstacleType := [.jump, .slide, .wall, .breakable]

/-- getObstacleTypeForStage: the allowed-kind list per stage rule; null in
warmup, a singleton everywhere else (full_combo draws its one kind
uniformly from the four). -/
def getObstacleTypeForStage (t : StageType) (rFull : Fin 4) : Option (List ObstacleType) :=
  match t with
  | .warmup => none
  | .jump_only => some [.jump]
  | .slide_only => some [.slide]
  | .dodge_only => some [.wall]
  | .punch_only => some [.breakable]
  | .full_combo => some [allObstacleTypes.getD rFull.val .jump]

def laneOptions : List (Fin 3) := [0, 1, 2]

/-- The blocked-lane choice of one spawn event: one lane for ordinary
rules; for dodge_only and full_combo one lane when the draw is below 0.6
and otherwise the two lanes other than the uniformly drawn open lane. -/
def spawnLanes (stageT : StageType) (rand : Rand) : List (Fin 3) :=
  if (if stageT = .full_combo ∨ stageT = .dodge_only then
        (if rand.rNum < 3/5 then (1 : ℕ) else 2)
      else 1) = 2
  then laneOptions.filter (fun l => ¬ l = rand.rOpenLane)
  else [rand.rLane]

/-- The spawn itself, after the accumulator has reached the period: the
accumulator resets to zero and every blocked lane gets the same kind
(the allowed list is always a singleton, so index 0 of it). -/
def spawnNow (allowedKinds : List ObstacleType) (rand : Rand) (s : GameState) : GameState :=
  { s with
      timeSinceLastObstacle := 0,
      obstacles := s.obstacles ++
        (spawnLanes (getStage s).type rand).map
          (fun l => createObstacle l (allowedKinds.getD 0 .jump)) }

/-- generateObstacles: warmup returns before touching the accumulator;
otherwise the tick delta is accumulated and a spawn fires exactly when
the accumulator reaches interval / currentSpeed. -/
def generateObstacles (rand : Rand) (delta : ℚ) (s : GameState) : GameState :=
  match getObstacleTypeForStage (getStage s).type rand.rFull with
  | none => s
  | some allowedKinds =>
      if s.timeSinceLastObstacle + delta < (getStage s).interval / s.currentSpeed then
        { s with timeSinceLastObstacle := s.timeSinceLastObstacle + delta }
      else
        spawnNow allowedKinds rand s

lemma generateObstacles_none (rand : Rand) (delta : ℚ) (s : GameState)
    (h : getObstacleTypeForStage (getStage s).type rand.rFull = none) :
    generateObstacles rand delta s = s := by
  unfold generateObstacles
  rw [h]

lemma generateObstacles_below (rand : Rand) (delta : ℚ) (s : GameState)
    (allowedKinds : List ObstacleType)
    (h : getObstacleTypeForStage (getStage s).type rand.rFull = some allowedKinds)
    (hlt : s.timeSinceLastObstacle + delta < (getStage s).interval / s.currentSpeed) :
    generateObstacles rand delta s =
      { s with timeSinceLastObstacle := s.timeSinceLastObstacle + delta } := by
  unfold generateObstacles
  rw [h]
  exact if_pos hlt

lemma generateObstacles_fire (rand : Rand) (delta : ℚ) (s : GameState)
    (allowedKinds : List ObstacleType)
    (h : getObstacleTypeForStage (getStage s).type rand.rFull = some allowedKinds)
    (hge : (getStage s).interval / s.currentSpeed ≤ s.timeSinceLastObstacle + delta) :
    generateObstacles rand delta s = spawnNow allowedKinds rand s := by
  unfold generateObstacles
  rw [h]
  exact if_neg (not_lt.mpr hge)

lemma map_createObstacle_obstacleType (ls : List (Fin 3)) (k : ObstacleType) :
    (ls.map (fun l => createObstacle l k)).map (fun o => o.obstacleType) =
      List.replicate ls.length k := by
  induction ls with
  | nil => rfl
  | cons a t ih => simp [createObstacle_type, ih, List.replicate_succ]

lemma map_createObstacle_lane (ls : List (Fin 3)) (k : ObstacleType) :
    (ls.map (fun l => createObstacle l k)).map (fun o => o.lane) = ls := by
  induction ls with
  | nil => rfl
  | cons a t ih => simp [createObstacle_lane, ih]

lemma filter_open_length (r : Fin 3) :
    (laneOptions.filter (fun l => ¬ l = r)).length = 2 := by
  revert r; decide

lemma open_not_mem_filter (r : Fin 3) :
    r ∉ laneOptions.filter (fun l => ¬ l = r) := by
  revert r; decide

lemma spawnLanes_other (t : StageType) (rand : Rand)
    (h : ¬(t = .full_combo ∨ t = .dodge_only)) : spawnLanes t rand = [rand.rLane] := by
  unfold spawnLanes
  rw [if_neg h]
  simp

lemma spawnLanes_length (t : StageType) (rand : Rand) :
    (spawnLanes t rand).length = 1 ∨ (spawnLanes t rand).length = 2 := by
  unfold spawnLanes
  by_cases hc : (if t = .full_combo ∨ t = .dodge_only then
      (if rand.rNum < 3/5 then (1 : ℕ) else 2) else 1) = 2
  · rw [if_pos hc]
    exact Or.inr (filter_open_length rand.rOpenLane)
  · rw [if_neg hc]
    exact Or.inl rfl

lemma spawnLanes_two (t : StageType) (rand : Rand)
    (h : (spawnLanes t rand).length = 2) :
    spawnLanes t rand = laneOptions.filter (fun l => ¬ l = rand.rOpenLane) := by
  unfold spawnLanes at h ⊢
  by_cases hc : (if t = .full_combo ∨ t = .dodge_only then
      (if rand.rNum < 3/5 then (1 : ℕ) else 2) else 1) = 2
  · rw [if_pos hc]
  · rw [if_neg hc] at h
    simp at h

lemma getObstacleTypeForStage_ne_nil (t : StageType) (r : Fin 4)
    (al : List ObstacleType) (h : getObstacleTypeForStage t r = some al) :
    al ≠ [] := by
  cases t <;> simp [getObstacleTypeForStage] at h <;> simp [← h]

lemma getD_zero_mem (l : List ObstacleType) (h : l ≠ []) :
    l.getD 0 .jump ∈ l := by
  cases l with
  | nil => exact absurd rfl h
  | cons a t => simp [List.getD]

/-- The obstacles appended by one call of generateObstacles. -/
def spawnedObstacles (rand : Rand) (delta : ℚ) (s : GameState) : List Obstacle :=
  (generateObstacles rand delta s).obstacles.drop s.obstacles.length

/-- Claim C6: warmup spawns nothing; a firing spawn event appends
obstacles that all share one kind drawn from the allowed list of the
active rule, blocks exactly one lane for the ordinary rules and one or
two lanes for dodge_only and full_combo, and when two lanes are blocked
they are exactly the two lanes other than the uniformly drawn open lane,
which is left free, so the three lanes are never all blocked. -/
theorem spawn_event_shape (s : GameState) (rand : Rand) (delta : ℚ) :
    ((getStage s).type = .warmup →
      (generateObstacles rand delta s).obstacles = s.obstacles) ∧
    (∀ allowedKinds,
      getObstacleTypeForStage (getStage s).type rand.rFull = some allowedKinds →
      (getStage s).interval / s.currentSpeed ≤ s.timeSinceLastObstacle + delta →
      ∃ k, k ∈ allowedKinds ∧
        (spawnedObstacles rand delta s).map (fun o => o.obstacleType) =
          List.replicate (spawnedObstacles rand delta s).length k ∧
        ((spawnedObstacles rand delta s).length = 1 ∨
          (spawnedObstacles rand delta s).length = 2) ∧
        (¬((getStage s).type = .full_combo ∨ (getStage s).type = .dodge_only) →
          (spawnedObstacles rand delta s).length = 1) ∧
        ((spawnedObstacles rand delta s).length = 2 →
          (spawnedObstacles rand delta s).map (fun o => o.lane) =
            laneOptions.filter (fun l => ¬ l = rand.rOpenLane) ∧
          rand.rOpenLane ∉ (spawnedObstacles rand delta s).map (fun o => o.lane))) := by
  constructor
  · intro hw
    have hn : getObstacleTypeForStage (getStage s).type rand.rFull = none := by
      rw [hw]; rfl
    rw [generateObstacles_none rand delta s hn]
  · intro allowedKinds hal hge
    have hspawned : spawnedObstacles rand delta s =
        (spawnLanes (getStage s).type rand).map
          (fun l => createObstacle l (allowedKinds.getD 0 .jump)) := by
      unfold spawnedObstacles
      rw [generateObstacles_fire rand delta s allowedKinds hal hge]
      unfold spawnNow
      exact List.drop_left _ _
    have hlen : (spawnedObstacles rand delta s).length =
        (spawnLanes (getStage s).type rand).length := by
      rw [hspawned, List.length_map]
    refine ⟨allowedKinds.getD 0 .jump,
      getD_zero_mem allowedKinds (getObstacleTypeForStage_ne_nil _ _ _ hal), ?_, ?_, ?_, ?_⟩
    · rw [hspawned, map_createObstacle_obstacleType, List.length_map]
    · rw [hlen]; exact spawnLanes_length _ rand
    · intro hno
      rw [hlen, spawnLanes_other _ rand hno]
      rfl
    · intro h2
      rw [hlen] at h2
      rw [hspawned, map_createObstacle_lane, spawnLanes_two _ rand h2]
      exact ⟨rfl, open_not_mem_filter rand.rOpenLane⟩

/-- A dodge_only mid-run state whose spawn accumulator is about to fire. -/
def dodgeState : GameState :=
  { initialState with stageIndex := 3, score := 1360, timeSinceLastObstacle := 10 }

/-- Random draws forcing the two-lane branch with lane 2 kept open. -/
def dodgeRand : Rand := ⟨0, 4/5, 2, 0⟩

/-- Claim C6 witness: the theorem fired on a concrete dodge_only state
that blocks two lanes and keeps lane 2 open. -/
theorem spawn_event_shape_witness :
    ∃ k, k ∈ [ObstacleType.wall] ∧
      (spawnedObstacles dodgeRand 1 dodgeState).map (fun o => o.obstacleType) =
        List.replicate (spawnedObstacles dodgeRand 1 dodgeState).length k ∧
      ((spawnedObstacles dodgeRand 1 dodgeState).length = 1 ∨
        (spawnedObstacles dodgeRand 1 dodgeState).length = 2) ∧
      (¬((getStage dodgeState).type = .full_combo ∨
          (getStage dodgeState).type = .dodge_only) →
        (spawnedObstacles dodgeRand 1 dodgeState).length = 1) ∧
      ((spawnedObstacles dodgeRand 1 dodgeState).length = 2 →
        (spawnedObstacles dodgeRand 1 dodgeState).map (fun o => o.lane) =
          laneOptions.filter (fun l => ¬ l = dodgeRand.rOpenLane) ∧
        dodgeRand.rOpenLane ∉ (spawnedObstacles dodgeRand 1 dodgeState).map (fun o => o.lane)) :=
  (spawn_event_shape dodgeState dodgeRand 1).2 [ObstacleType.wall] (by decide) (by decide)

/-- Claim C7 counterexample: on a warmup tick (the fresh session) with
delta one second, the claim says the accumulator must grow by one, but
generateObstacles returns before touching it, leaving it at zero. -/
theorem spawn_accum_cex :
    (getStage initialState).type = .warmup ∧
    ¬ ((generateObstacles ⟨0, 0, 0, 0⟩ 1 initialState).timeSinceLastObstacle =
        initialState.timeSinceLastObstacle + 1) := by decide

/-- Claim C7 (amended): in a stage whose rule allows spawning, every tick
adds its delta to the accumulator, a spawn fires exactly when the
accumulated value reaches the period interval / currentSpeed, the
accumulator then resets to zero, and below the period nothing is
created; in the warmup stage (null allowed kinds) the spawner instead
returns at once, neither accumulating nor spawning. -/
theorem spawn_accumulator (s : GameState) (rand : Rand) (delta : ℚ)
    (allowedKinds : List ObstacleType)
    (hal : getObstacleTypeForStage (getStage s).type rand.rFull = some allowedKinds) :
    (s.timeSinceLastObstacle + delta < (getStage s).interval / s.currentSpeed →
      generateObstacles rand delta s =
        { s with timeSinceLastObstacle := s.timeSinceLastObstacle + delta }) ∧
    ((getStage s).interval / s.currentSpeed ≤ s.timeSinceLastObstacle + delta →
      (generateObstacles rand delta s).timeSinceLastObstacle = 0 ∧
      s.obstacles.length < (generateObstacles rand delta s).obstacles.length) ∧
    (∀ (rand2 : Rand) (delta2 : ℚ) (w : GameState),
      getObstacleTypeForStage (getStage w).type rand2.rFull = none →
      generateObstacles rand2 delta2 w = w) := by
  refine ⟨fun hlt => generateObstacles_below rand delta s allowedKinds hal hlt, fun hge => ?_,
    fun rand2 delta2 w hw => generateObstacles_none rand2 delta2 w hw⟩
  rw [generateObstacles_fire rand delta s allowedKinds hal hge]
  refine ⟨rfl, ?_⟩
  show s.obstacles.length <
    (s.obstacles ++ (spawnLanes (getStage s).type rand).map
      (fun l => createObstacle l (allowedKinds.getD 0 .jump))).length
  rw [List.length_append, List.length_map]
  rcases spawnLanes_length (getStage s).type rand with h | h <;> omega

/-- A jump_only mid-run state whose spawn accumulator is still below the
two-second effective period. -/
def jumpStageState : GameState :=
  { initialState with stageIndex := 1, score := 460, timeSinceLastObstacle := 1/2 }

/-- Claim C7 witness: the amended theorem on a concrete jump_only state
below the period (the accumulator grows by the delta) and on the fresh
warmup state (no change at all). -/
theorem spawn_accumulator_witness :
    generateObstacles ⟨0, 0, 0, 0⟩ (1/2) jumpStageState =
      { jumpStageState with
          timeSinceLastObstacle := jumpStageState.timeSinceLastObstacle + 1/2 } ∧
    generateObstacles ⟨0, 0, 0, 0⟩ 1 initialState = initialState := by
  have h := spawn_accumulator jumpStageState ⟨0, 0, 0, 0⟩ (1/2) [ObstacleType.jump] (by decide)
  exact ⟨h.1 (by decide), h.2.2 ⟨0, 0, 0, 0⟩ 1 initialState (by decide)⟩

/-! ## The jump arc and the per-tick update (src/game.js lines 461-538) -/

/-- The jump block of the tick: given the clock reading and the jump
start time, the updated isJumping flag and camera height.  While
progress is below one the camera follows the scaled parabola; at or past
one the jump ends and the camera returns to run height. -/
def jumpStep (elapsed jumpStartTime : ℚ) : Bool × ℚ :=
  if (elapsed - jumpStartTime) / JUMP_DURATION < 1 then
    (true, PLAYER_RUN_HEIGHT + JUMP_HEIGHT * 4 *
      ((elapsed - jumpStartTime) / JUMP_DURATION -
        ((elapsed - jumpStartTime) / JUMP_DURATION) * ((elapsed - jumpStartTime) / JUMP_DURATION)))
  else (false, PLAYER_RUN_HEIGHT)

/-- updateDebris: age every burst by the delta and drop the expired
ones (the per-particle positions and the opacity are rendering data). -/
def updateDebris (delta : ℚ) (ds : List Debris) : List Debris :=
  (ds.map (fun d => { d with ttl := d.ttl - delta })).filter (fun d => ¬ d.ttl ≤ 0)

/-- The speed recomputed at the top of each tick. -/
def tickSpeed (s : GameState) (delta : ℚ) : ℚ :=
  RUN_SPEED_BASE + ((⌊(s.elapsedTime + delta) / 10⌋ : ℤ) : ℚ) * RUN_SPEED_INCREASE

/-- Steps 1-6 of the tick body: clock and speed update, jump arc or
slide/run camera height, lateral easing, obstacle movement and culling,
debris movement and ageing. -/
def advanceWorld (delta : ℚ) (s : GameState) : GameState :=
  { s with
      elapsedTime := s.elapsedTime + delta,
      currentSpeed := tickSpeed s delta,
      isJumping := if s.isJumping then (jumpStep (s.elapsedTime + delta) s.jumpStartTime).1 else s.isJumping,
      cameraY :=
        if s.isSliding then SLIDE_HEIGHT
        else if (if s.isJumping then (jumpStep (s.elapsedTime + delta) s.jumpStartTime).1 else s.isJumping) = false then PLAYER_RUN_HEIGHT
        else (jumpStep (s.elapsedTime + delta) s.jumpStartTime).2,
      cameraX := s.cameraX + (LANES s.currentLane - s.cameraX) * (1/10),
      obstacles :=
        (s.obstacles.map (fun o => { o with z := o.z + tickSpeed s delta * delta })).filter
          (fun o => ¬ OBSTACLE_CULL_Z < o.z),
      debrisParticles :=
        updateDebris delta
          (s.debrisParticles.map (fun d => { d with z := d.z + tickSpeed s delta * delta })) }

/-- Step 8 of the tick: ProgressionManager.update with the current score. -/
def applyProgression (s : GameState) : GameState :=
  { s with stageIndex := pmUpdate s.stageIndex s.score }

/-- Step 9 of the tick: score grows by distance times 0.1, the distance
being the speed set at the top of this tick times the delta. -/
def postScore (delta : ℚ) (s : GameState) : GameState :=
  { s with score := s.score + s.currentSpeed * delta * (1/10) }

/-- One full animation tick.  A paused or game-over loop is inert. -/
def animate (rand : Rand) (delta : ℚ) (s : GameState) : GameState :=
  if s.isPaused ∨ s.isGameOver then s
  else
    postScore delta
      (generateObstacles rand delta
        (applyProgression
          (checkCollisions
            (advanceWorld delta s))))

/-- Iterated ticks of the loop. -/
def runTicks (rand : Rand) (delta : ℚ) : ℕ → GameState → GameState
  | 0, s => s
  | n + 1, s => runTicks rand delta n (animate rand delta s)

/-- Claim C8: the vertical offset above run height at time t into a jump
is jumpHeight * 4 * (t/duration - (t/duration)^2) for 0 ≤ t < duration,
zero at t = 0, exactly jumpHeight at the midpoint, never negative on the
arc, and at or past the duration the player is back to running with
offset exactly zero. -/
theorem jump_arc (g t : ℚ) (h0 : 0 ≤ t) :
    (t < JUMP_DURATION →
      (jumpStep (g + t) g).2 - PLAYER_RUN_HEIGHT =
        JUMP_HEIGHT * 4 * (t / JUMP_DURATION - (t / JUMP_DURATION) ^ 2) ∧
      0 ≤ (jumpStep (g + t) g).2 - PLAYER_RUN_HEIGHT ∧
      (jumpStep (g + t) g).1 = true) ∧
    (jumpStep (g + 0) g).2 = PLAYER_RUN_HEIGHT ∧
    (jumpStep (g + JUMP_DURATION / 2) g).2 = PLAYER_RUN_HEIGHT + JUMP_HEIGHT ∧
    (JUMP_DURATION ≤ t →
      (jumpStep (g + t) g).1 = false ∧ (jumpStep (g + t) g).2 = PLAYER_RUN_HEIGHT) := by
  have hprog : ∀ u : ℚ, (g + u) - g = u := fun u => by ring
  refine ⟨?_, ?_, ?_, ?_⟩
  · intro ht
    have hlt : ((g + t) - g) / JUMP_DURATION < 1 := by
      rw [hprog]
      rw [div_lt_one (by norm_num [JUMP_DURATION])]
      simpa using ht
    unfold jumpStep
    rw [if_pos hlt, hprog]
    refine ⟨by ring, ?_, rfl⟩
    have h1 : 0 ≤ t / JUMP_DURATION := div_nonneg h0 (by norm_num [JUMP_DURATION])
    have h2 : t / JUMP_DURATION < 1 := by rwa [hprog] at hlt
    have h3 : 0 ≤ t / JUMP_DURATION - (t / JUMP_DURATION) * (t / JUMP_DURATION) := by
      nlinarith
    have h4 : (0 : ℚ) ≤ JUMP_HEIGHT * 4 := by norm_num [JUMP_HEIGHT]
    nlinarith
  · unfold jumpStep
    rw [if_pos (by rw [hprog]; norm_num [JUMP_DURATION]), hprog]
    norm_num
  · unfold jumpStep
    rw [if_pos (by rw [hprog]; norm_num [JUMP_DURATION]), hprog]
    norm_num [JUMP_DURATION, JUMP_HEIGHT, PLAYER_RUN_HEIGHT]
  · intro ht
    have hge : ¬ ((g + t) - g) / JUMP_DURATION < 1 := by
      rw [hprog, not_lt, le_div_iff₀ (by norm_num [JUMP_DURATION])]
      simpa [JUMP_DURATION] using ht
    unfold jumpStep
    rw [if_neg hge]
    exact ⟨rfl, rfl⟩

/-- Claim C8 witness: the arc evaluated a quarter second into a jump
started at clock time 3 (offset 9/2 at the midpoint, still jumping) and
at the full half-second (back to running at run height). -/
theorem jump_arc_witness :
    (jumpStep (3 + 1/4) 3).2 - PLAYER_RUN_HEIGHT =
      JUMP_HEIGHT * 4 * ((1/4) / JUMP_DURATION - ((1/4) / JUMP_DURATION) ^ 2) ∧
    (jumpStep (3 + 1/4) 3).1 = true ∧
    (jumpStep (3 + 1/2) 3).1 = false ∧
    (jumpStep (3 + 1/2) 3).2 = PLAYER_RUN_HEIGHT := by
  have ha := jump_arc 3 (1/4) (by norm_num)
  have hb := jump_arc 3 (1/2) (by norm_num)
  have h1 := ha.1 (by norm_num [JUMP_DURATION])
  have h2 := hb.2.2.2 (by norm_num [JUMP_DURATION])
  exact ⟨h1.1, h1.2.2, h2.1, h2.2⟩

/-! ## Tick preservation lemmas -/

lemma generateObstacles_score (rand : Rand) (delta : ℚ) (x : GameState) :
    (generateObstacles rand delta x).score = x.score := by
  unfold generateObstacles
  cases h : getObstacleTypeForStage (getStage x).type rand.rFull
  · rfl
  · dsimp only
    split <;> rfl

lemma generateObstacles_currentSpeed (rand : Rand) (delta : ℚ) (x : GameState) :
    (generateObstacles rand delta x).currentSpeed = x.currentSpeed := by
  unfold generateObstacles
  cases h : getObstacleTypeForStage (getStage x).type rand.rFull
  · rfl
  · dsimp only
    split <;> rfl

/-! ## Restart and the jump command (src/game.js lines 221-245, 347-351) -/

/-- jump(): begin a jump only from the running pose of a live session. -/
def jump (s : GameState) : GameState :=
  if s.isJumping ∨ s.isSliding ∨ s.isGameOver then s
  else { s with isJumping := true, jumpStartTime := s.elapsedTime }

/-- resetGame: restart the clock and the session.  The fields it assigns
are exactly the ones the source assigns; the pose flags isJumping,
isSliding, isPunching and the action start times are NOT among them. -/
def resetGame (s : GameState) : GameState :=
  { s with
      isGameOver := false,
      isPaused := false,
      currentLane := 1,
      score := 0,
      currentSpeed := RUN_SPEED_BASE,
      stageIndex := 0,
      timeSinceLastObstacle := 0,
      obstacles := [],
      debrisParticles := [],
      elapsedTime := 0,
      cameraX := LANES 1,
      cameraY := PLAYER_RUN_HEIGHT }

/-! ## Claim C4: ten one-second warmup ticks -/

/-- Claim C4 counterexample: from the fresh session, ten ticks of one
second each do NOT leave the score at 15: on the tenth tick the clock
reads 10 s, so the speed formula base + floor(elapsed / 10) * increment
already yields 15.5 and the last increment is 1.55. -/
theorem warmup_ten_ticks_cex :
    ¬ ((runTicks ⟨0, 0, 0, 0⟩ 1 10 initialState).score = 15) := by decide

/-- Claim C4 (amended): from the fresh session, ten ticks of one second
each with no input and no obstacles accumulate a score of exactly 15.05
(nine ticks at speed 15 and a tenth at 15.5, each contributing
speed * delta * 0.1) and leave the stage at warmup with no obstacle
spawned. -/
theorem warmup_ten_ticks :
    (runTicks ⟨0, 0, 0, 0⟩ 1 10 initialState).score = 301/20 ∧
    (runTicks ⟨0, 0, 0, 0⟩ 1 10 initialState).stageIndex = 0 ∧
    (getStage (runTicks ⟨0, 0, 0, 0⟩ 1 10 initialState)).type = .warmup ∧
    (runTicks ⟨0, 0, 0, 0⟩ 1 10 initialState).obstacles = [] := by decide

/-! ## Claim C5: restart after a death in mid-jump -/

/-- A wall that will reach the player plane after a quarter-second tick. -/
def midJumpWall : Obstacle := { createObstacle 1 .wall with z := -15/4 }

def preJumpState : GameState := { initialState with obstacles := [midJumpWall] }

/-- The session after jumping and then fatally hitting the wall while
airborne a quarter second later. -/
def deathMidJump : GameState := animate ⟨0, 0, 0, 0⟩ (1/4) (jump preJumpState)

/-- Claim C5 (code bug): resetGame does reset the score, stage, world
collections and lane, but it never clears isJumping, so a session that
ended in mid-air restarts still flagged as jumping instead of in the
running pose the spec requires. -/
theorem resetGame_keeps_jump :
    deathMidJump.isGameOver = true ∧
    deathMidJump.isJumping = true ∧
    (resetGame deathMidJump).score = 0 ∧
    (resetGame deathMidJump).stageIndex = 0 ∧
    (resetGame deathMidJump).obstacles = [] ∧
    (resetGame deathMidJump).debrisParticles = [] ∧
    (resetGame deathMidJump).currentLane = 1 ∧
    (resetGame deathMidJump).isJumping = true := by decide

/-! ## Claim C10: the death tick runs to completion -/

def deathWall : Obstacle := { createObstacle 1 .wall with z := -15 }

/-- A running session about to die: two fatal walls reach the player
this tick, the score is already past the first stage threshold, and the
spawn accumulator is past its period. -/
def deathState : GameState :=
  { initialState with
      score := 460
      timeSinceLastObstacle := 5
      obstacles := [deathWall, deathWall] }

def gameOverState : GameState := { initialState with isGameOver := true }

/-- Claim C10: a fatal collision raised during a tick does not cut the
tick short: the score still grows by that tick's distance times 0.1 for
every running tick, a game-over state makes every later tick the
identity, and on a concrete death tick the obstacle after the fatal one
is still checked and marked, the progression still advances, an obstacle
still spawns and the death tick's distance is still scored. -/
theorem death_tick_continues :
    (∀ (rand : Rand) (delta : ℚ) (s : GameState), s.isGameOver = true →
      animate rand delta s = s) ∧
    (∀ (rand : Rand) (delta : ℚ) (s : GameState),
      s.isPaused = false → s.isGameOver = false →
      (animate rand delta s).score = s.score + tickSpeed s delta * delta * (1/10)) ∧
    ((animate ⟨0, 0, 0, 0⟩ 1 deathState).isGameOver = true ∧
      (animate ⟨0, 0, 0, 0⟩ 1 deathState).obstacles.map (fun o => o.collided) =
        [true, true, false] ∧
      (animate ⟨0, 0, 0, 0⟩ 1 deathState).stageIndex = deathState.stageIndex + 1 ∧
      (animate ⟨0, 0, 0, 0⟩ 1 deathState).obstacles.length =
        deathState.obstacles.length + 1 ∧
      (animate ⟨0, 0, 0, 0⟩ 1 deathState).score = deathState.score + 3/2) := by
  refine ⟨?_, ?_, by decide⟩
  · intro rand delta s h
    unfold animate
    exact if_pos (Or.inr h)
  · intro rand delta s h1 h2
    unfold animate
    rw [if_neg (by simp [h1, h2])]
    unfold postScore
    dsimp only
    rw [generateObstacles_score, generateObstacles_currentSpeed]
    rfl

/-- Claim C10 witness: the two universal parts applied to a game-over
state (inert tick) and to the concrete death state (score still grows by
the death tick's distance). -/
theorem death_tick_continues_witness :
    animate ⟨0, 0, 0, 0⟩ 1 gameOverState = gameOverState ∧
    (animate ⟨0, 0, 0, 0⟩ 1 deathState).score =
      deathState.score + tickSpeed deathState 1 * 1 * (1/10) := by
  have h := death_tick_continues
  exact ⟨h.1 ⟨0, 0, 0, 0⟩ 1 gameOverState (by decide),
    h.2.1 ⟨0, 0, 0, 0⟩ 1 deathState (by decide) (by decide)⟩

/-! ## Claim C9: the slide timer against pause (src/game.js lines
353-358 and 560-589)

slide() arms a one-shot setTimeout of 1000 ms that clears isSliding;
setTimeout counts wall-clock time and the pause button only toggles
isPaused, so the pending timer is neither cancelled nor suspended.  The
wall-clock semantics of those lines is embedded here: a state carrying
the wall-clock reading and the pending fire instant, a slide event, a
pause toggle, and the passage of real time, which fires a due timer
without consulting isPaused. -/

structure RtState where
  now : ℚ
  isPaused : Bool
  isGameOver : Bool
  isJumping : Bool
  isSliding : Bool
  slideTimerFireAt : Option ℚ
deriving DecidableEq

/-- slide(): set isSliding and arm the 1 s wall-clock timer. -/
def rtSlide (s : RtState) : RtState :=
  if s.isJumping ∨ s.isSliding ∨ s.isGameOver then s
  else { s with isSliding := true, slideTimerFireAt := some (s.now + 1) }

/-- The pause button: toggle isPaused only; pending timers are untouched. -/
def rtPause (s : RtState) : RtState := { s with isPaused := !s.isPaused }

/-- Real time advancing by d: a pending slide timer whose instant is
reached fires and clears isSliding, whether or not the game is paused. -/
def rtElapse (d : ℚ) (s : RtState) : RtState :=
  match s.slideTimerFireAt with
  | some f =>
      if f ≤ s.now + d then
        { s with now := s.now + d, isSliding := false, slideTimerFireAt := none }
      else { s with now := s.now + d }
  | none => { s with now := s.now + d }

def rtStart : RtState := ⟨0, false, false, false, false, none⟩

/-- Claim C9 (code bug): slide at t = 0, pause at t = 0.2 while the
slide is still active; when the wall clock reaches t = 1 the setTimeout
fires anyway and clears isSliding during the pause, before any resume —
the slide-end timer counts real time instead of respecting pause. -/
theorem slide_timer_fires_during_pause :
    (rtElapse (1/5) (rtSlide rtStart)).isSliding = true ∧
    (rtPause (rtElapse (1/5) (rtSlide rtStart))).isPaused = true ∧
    (rtElapse (4/5) (rtPause (rtElapse (1/5) (rtSlide rtStart)))).isPaused = true ∧
    (rtElapse (4/5) (rtPause (rtElapse (1/5) (rtSlide rtStart)))).isSliding = false := by
  decide

end Runner
